import Mathlib

/-!
Verification of the collision-detection layer of TheRenderEngine: the Box and
Circle collider components (src/engine/components/collision/circle.js, which
holds both `R.components.collision.Circle` and `R.components.collision.Box`).

JavaScript numbers are modelled as real numbers.  Fallible evaluation (calling
a missing method, indexing `null`, reading an undeclared identifier) is
modelled with `Except JsErr`.  Geometry primitives (`R.math.Vector2D`,
`R.math.Circle2D`, `R.math.Rectangle2D`) and the base class
`R.components.Collider` are code of this repository that is not under src/;
those parts are modelled from the spec and marked as such.
-/

namespace RenderEngine

/-- The CONTINUE/STOP protocol verdicts of `R.components.Collider`
(modelled from the spec §4.1). -/
inductive Verdict where
  | CONTINUE
  | STOP
deriving DecidableEq

/-- Runtime JavaScript errors that the collider code can raise. -/
inductive JsErr where
  /-- calling a missing method or indexing a `null`/`undefined` value -/
  | typeError
  /-- reading an undeclared identifier -/
  | refError
deriving DecidableEq

/-- The test-mode flag of `R.components.Collider` (spec §4.1: `SIMPLE_TEST`
or `DETAILED_TEST`, default `SIMPLE_TEST`). -/
inductive TestMode where
  | SIMPLE_TEST
  | DETAILED_TEST
deriving DecidableEq

/-- A 2D point/vector (`R.math.Point2D` / `R.math.Vector2D`). -/
structure Vec2 where
  x : ℝ
  y : ℝ

/-- Modelled from the spec: geometry primitives are external pure value types
(§2); `Vector2D.len` is the Euclidean length of the vector. -/
noncomputable def Vec2.len (v : Vec2) : ℝ := Real.sqrt (v.x * v.x + v.y * v.y)

/-- Modelled from the spec: `Vector2D.normalize` scales the vector by the
reciprocal of its length (componentwise division by `len`). -/
noncomputable def Vec2.normalize (v : Vec2) : Vec2 := ⟨v.x / v.len, v.y / v.len⟩

/-- A world bounding circle (`R.math.Circle2D`): center plus radius. -/
structure Circle2D where
  center : Vec2
  radius : ℝ

/-- A world bounding box (`R.math.Rectangle2D`), reduced to the accessors the
colliders use: `getCenter`, `getHalfWidth`, `getHalfHeight`. -/
structure Box2D where
  center : Vec2
  halfWidth : ℝ
  halfHeight : ℝ

/-- The squared center distance computed at circle.js lines 142-143 and
330-331: `(c1.x-c2.x)*(c1.x-c2.x) + (c1.y-c2.y)*(c1.y-c2.y)`. -/
def distSqr (c1 c2 : Vec2) : ℝ :=
  (c1.x - c2.x) * (c1.x - c2.x) + (c1.y - c2.y) * (c1.y - c2.y)

/-- Modelled from the spec: `Circle2D.isIntersecting` is the "boolean
circle-circle intersection (sum of radii vs. center distance)" (§4.3), with
the strict comparison of §8 ("collision iff `d < r1 + r2`"). -/
noncomputable def Circle2D.isIntersecting (a b : Circle2D) : Prop :=
  Real.sqrt (distSqr a.center b.center) < a.radius + b.radius

/-- Modelled from the spec: `Rectangle2D.isIntersecting` is the "standard AABB
overlap test on both axes" (§4.2). -/
def Box2D.isIntersecting (a b : Box2D) : Prop :=
  |a.center.x - b.center.x| ≤ a.halfWidth + b.halfWidth ∧
  |a.center.y - b.center.y| ≤ a.halfHeight + b.halfHeight

/-- `R.struct.CollisionData`: the record built by
`CollisionData.create(distance, normal, shapeA, shapeB, separation)`.  In this
repository the shape slots receive (at most) world bounding circles. -/
structure CollisionData where
  distance : ℝ
  normal : Vec2
  shapeA : Option Circle2D
  shapeB : Option Circle2D
  separation : Vec2

/-- A host (or candidate) game object, reduced to the members the colliders
use.  `worldCircle`/`worldBox` are `some` exactly when the object exposes the
`getWorldCircle`/`getWorldBox` accessor (which then returns that shape);
`onCollide` is the verdict the object's collision callback returns. -/
structure HostObj where
  worldCircle : Option Circle2D := none
  worldBox : Option Box2D := none
  onCollide : Verdict := Verdict.CONTINUE

/-- Modelled from the spec: the base class `R.components.Collider.testCollision`
("delegate to the base class's collision callback dispatch and propagate its
CONTINUE/STOP result", §4.2/§4.3) invokes the host's `onCollide` callback and
returns its verdict. -/
def baseTestCollision (host : HostObj) : Verdict := host.onCollide

/-- The mutable state of a `R.components.collision.Circle` component.
`hasMethods` and `cData` are the instance fields declared at lines 74-75;
`hasMethod` is the distinct property that only `release()` (line 83) assigns;
`collisionData` is the base-class storage behind
`getCollisionData`/`setCollisionData`. -/
structure CircleCollider where
  hasMethods : Option Bool := none
  hasMethod : Option Bool := none
  cData : Option CollisionData := none
  collisionData : Option CollisionData := none
  testMode : TestMode := TestMode.SIMPLE_TEST
  host : HostObj := {}

/-- `R.components.collision.Circle.setHostObject` (lines 95-102): binds the
host and caches `[hostObj.getWorldCircle != undefined]` in `hasMethods`. -/
def CircleCollider.setHostObject (s : CircleCollider) (hostObj : HostObj) :
    CircleCollider :=
  { s with host := hostObj, hasMethods := some hostObj.worldCircle.isSome }

/-- `R.components.collision.Circle.release` (lines 81-85).  `this.base()` is
modelled from the spec ("returns the component to a clean reusable state (no
retained CollisionData ...)", §4.1) as clearing the stored CollisionData.  The
method then assigns `this.hasMethod = null` — note: `hasMethod`, without the
trailing `s`, so the capability cache `hasMethods` is left untouched — and
`this.cData = null`. -/
def CircleCollider.release (s : CircleCollider) : CircleCollider :=
  { s with collisionData := none, hasMethod := none, cData := none }

/-- The mutable state of a `R.components.collision.Box` component.
`hasMethod` is the field declared at line 263 and assigned by
`setHostObject`; `collisionData` is the base-class storage. -/
structure BoxCollider where
  hasMethod : Bool := false
  collisionData : Option CollisionData := none
  testMode : TestMode := TestMode.SIMPLE_TEST
  host : HostObj := {}

/-- `R.components.collision.Box.setHostObject` (lines 282-289): binds the host
and caches `hostObj.getWorldBox != undefined` in `hasMethod`. -/
def BoxCollider.setHostObject (s : BoxCollider) (hostObj : HostObj) :
    BoxCollider :=
  { s with host := hostObj, hasMethod := hostObj.worldBox.isSome }

/-- `R.components.collision.Box.release` (lines 269-272): base-class release
(modelled from the spec as clearing the stored CollisionData) followed by
`this.hasMethod = false`. -/
def BoxCollider.release (s : BoxCollider) : BoxCollider :=
  { s with collisionData := none, hasMethod := false }

/-- Combined radius of the circle-circle detailed test (line 139):
`circle1.getRadius() + circle2.getRadius()`. -/
def circleTRad (c1 c2 : Circle2D) : ℝ := c1.radius + c2.radius

/-- The detailed-test overlap guard of the circle collider (line 145):
`distSqr < tRad * tRad`. -/
def circleDetailedHit (c1 c2 : Circle2D) : Prop :=
  distSqr c1.center c2.center < circleTRad c1 c2 * circleTRad c1 c2

/-- Separation depth of the circle detailed test (line 147):
`diff = tRad - Math.sqrt(distSqr)`. -/
noncomputable def circleDiff (c1 c2 : Circle2D) : ℝ :=
  circleTRad c1 c2 - Real.sqrt (distSqr c1.center c2.center)

/-- The separation vector the circle detailed test computes (line 150):
`Vector2D.create((c2.x - c1.x)*diff, (c2.y - c1.y)*diff)` — the raw center
difference scaled by `diff`. -/
noncomputable def circleSep (c1 c2 : Circle2D) : Vec2 :=
  ⟨(c2.center.x - c1.center.x) * circleDiff c1 c2,
   (c2.center.y - c1.center.y) * circleDiff c1 c2⟩

/-- The normal the circle detailed test computes (line 152):
`Vector2D.create(c2.x - c1.x, c2.y - c1.y).normalize()`. -/
noncomputable def circleNormal (c1 c2 : Circle2D) : Vec2 :=
  Vec2.normalize ⟨c2.center.x - c1.center.x, c2.center.y - c1.center.y⟩

/-- Combined approximated radius of the box detailed test (line 327):
`Math.max(box1.getHalfWidth(), box1.getHalfHeight()) +
 Math.max(box2.getHalfWidth(), box2.getHalfHeight())`. -/
noncomputable def boxTRad (b1 b2 : Box2D) : ℝ :=
  max b1.halfWidth b1.halfHeight + max b2.halfWidth b2.halfHeight

/-- The detailed-test overlap guard of the box collider (line 333). -/
noncomputable def boxDetailedHit (b1 b2 : Box2D) : Prop :=
  distSqr b1.center b2.center < boxTRad b1 b2 * boxTRad b1 b2

/-- Separation depth of the box detailed test (line 335). -/
noncomputable def boxDiff (b1 b2 : Box2D) : ℝ :=
  boxTRad b1 b2 - Real.sqrt (distSqr b1.center b2.center)

/-- The separation vector of the box detailed test (line 338). -/
noncomputable def boxSep (b1 b2 : Box2D) : Vec2 :=
  ⟨(b2.center.x - b1.center.x) * boxDiff b1 b2,
   (b2.center.y - b1.center.y) * boxDiff b1 b2⟩

/-- The normal of the box detailed test (line 340). -/
noncomputable def boxNormal (b1 b2 : Box2D) : Vec2 :=
  Vec2.normalize ⟨b2.center.x - b1.center.x, b2.center.y - b1.center.y⟩

/-- The CollisionData built and stored by the box detailed test (lines
338-343): `CollisionData.create(sep.len(), <normalized center difference>,
null, null, sep)`. -/
noncomputable def boxCollisionData (b1 b2 : Box2D) : CollisionData :=
  { distance := (boxSep b1 b2).len
    normal := boxNormal b1 b2
    shapeA := none
    shapeB := none
    separation := boxSep b1 b2 }

/-- Result of one `testCollision` call: the returned verdict (or the thrown
error), the component state afterwards, and whether the base-class collision
callback dispatch (`this.base(time, collisionObj, hostMask, targetMask)`)
ran. -/
structure Outcome (σ : Type) where
  result : Except JsErr Verdict
  state : σ
  dispatched : Bool

open Classical in
/-- `R.components.collision.Circle.testCollision` (lines 115-163). -/
noncomputable def CircleCollider.testCollision (s : CircleCollider)
    (_time : ℝ) (collisionObj : HostObj) (_hostMask _targetMask : ℤ) :
    Outcome CircleCollider :=
  -- lines 116-120: "Clean up old data first" — destroy the previously stored
  -- CollisionData and clear the reference
  let s1 : CircleCollider := { s with collisionData := none }
  -- line 123: `if (!this.hasMethods[0] && !collisionObj.getWorldCircle)`
  match s1.hasMethods with
  | none =>
      -- `hasMethods` is still null (component not attached): `null[0]` throws
      ⟨Except.error JsErr.typeError, s1, false⟩
  | some hm =>
      if (!hm && collisionObj.worldCircle.isNone) = true then
        ⟨Except.ok Verdict.CONTINUE, s1, false⟩   -- "Can't perform test"
      else
        -- lines 128-130: fetch both world circles
        match s1.host.worldCircle, collisionObj.worldCircle with
        | none, _ =>
            -- `host.getWorldCircle` is undefined: calling it throws
            ⟨Except.error JsErr.typeError, s1, false⟩
        | some _, none =>
            -- `collisionObj.getWorldCircle` is undefined: calling it throws
            ⟨Except.error JsErr.typeError, s1, false⟩
        | some circle1, some circle2 =>
            -- line 132: `getTestMode() == SIMPLE_TEST && circle1.isIntersecting(circle2)`
            if s1.testMode = TestMode.SIMPLE_TEST ∧
                circle1.isIntersecting circle2 then
              -- line 136: "Intersection test passed" — dispatch via the base class
              ⟨Except.ok (baseTestCollision s1.host), s1, true⟩
            else
              -- lines 139-145: squared-distance overlap guard
              if circleDetailedHit circle1 circle2 then
                -- lines 147-155: `diff` (`circleDiff`), `sep` (`circleSep`) and the
                -- first two `CollisionData.create` arguments (`sep.len()` and the
                -- normalized center difference, `circleNormal`) are computed, but
                -- the third and fourth arguments are the identifiers `shape1` and
                -- `shape2`, which are declared nowhere (the locals are
                -- `circle1`/`circle2`): reading them raises a ReferenceError, so
                -- no CollisionData is created or stored and the base dispatch at
                -- line 157 never runs
                ⟨Except.error JsErr.refError, s1, false⟩
              else
                -- line 162: "No collision"
                ⟨Except.ok Verdict.CONTINUE, s1, false⟩

open Classical in
/-- `R.components.collision.Box.testCollision` (lines 302-350). -/
noncomputable def BoxCollider.testCollision (s : BoxCollider)
    (_time : ℝ) (collisionObj : HostObj) (_hostMask _targetMask : ℤ) :
    Outcome BoxCollider :=
  -- lines 303-307: "Clean up old data first"
  let s1 : BoxCollider := { s with collisionData := none }
  -- line 310: `if (!this.hasMethods && !collisionObj.getWorldBox)`.
  -- The Box component never assigns a `hasMethods` property (`setHostObject`
  -- assigns `hasMethod`), so `this.hasMethods` reads as `undefined`, which is
  -- falsy; `!this.hasMethods` is therefore always true and the early-out
  -- fires exactly when the candidate lacks `getWorldBox`.
  if collisionObj.worldBox.isNone = true then
    ⟨Except.ok Verdict.CONTINUE, s1, false⟩   -- "Can't perform test"
  else
    -- lines 315-317: fetch both world boxes
    match s1.host.worldBox, collisionObj.worldBox with
    | none, _ =>
        -- `host.getWorldBox` is undefined: calling it throws
        ⟨Except.error JsErr.typeError, s1, false⟩
    | some _, none =>
        ⟨Except.error JsErr.typeError, s1, false⟩
    | some box1, some box2 =>
        -- line 319: mode switch
        if s1.testMode = TestMode.SIMPLE_TEST then
          if box1.isIntersecting box2 then
            -- line 322: "Intersection test passed"
            ⟨Except.ok (baseTestCollision s1.host), s1, true⟩
          else
            ⟨Except.ok Verdict.CONTINUE, s1, false⟩
        else
          -- lines 327-333: separating-circles approximation
          if boxDetailedHit box1 box2 then
            -- lines 335-343: build and store the CollisionData
            -- (`boxCollisionData`), then line 345: dispatch via the base class
            ⟨Except.ok (baseTestCollision s1.host),
             { s1 with collisionData := some (boxCollisionData box1 box2) }, true⟩
          else
            ⟨Except.ok Verdict.CONTINUE, s1, false⟩

/-! ### Helper lemmas -/

lemma distSqr_nonneg (c1 c2 : Vec2) : 0 ≤ distSqr c1 c2 :=
  add_nonneg (mul_self_nonneg _) (mul_self_nonneg _)

/-- The squared-distance comparison used by the detailed tests agrees with
comparing the true center distance against the combined radius, provided the
combined radius is non-negative. -/
lemma lt_sq_iff_sqrt_lt (c1 c2 : Vec2) (t : ℝ) (ht : 0 ≤ t) :
    distSqr c1 c2 < t * t ↔ Real.sqrt (distSqr c1 c2) < t := by
  constructor
  · intro h
    have h2 := Real.sqrt_lt_sqrt (distSqr_nonneg c1 c2) h
    rwa [Real.sqrt_mul_self ht] at h2
  · intro h
    have h2 := mul_self_lt_mul_self (Real.sqrt_nonneg (distSqr c1 c2)) h
    rwa [Real.mul_self_sqrt (distSqr_nonneg c1 c2)] at h2

/-- For circles with non-negative radii, the detailed-test guard coincides
with the (spec-modelled) boolean intersection predicate. -/
lemma circleDetailedHit_iff_isIntersecting (c1 c2 : Circle2D)
    (hr1 : 0 ≤ c1.radius) (hr2 : 0 ≤ c2.radius) :
    circleDetailedHit c1 c2 ↔ c1.isIntersecting c2 := by
  unfold circleDetailedHit Circle2D.isIntersecting circleTRad
  exact lt_sq_iff_sqrt_lt _ _ _ (add_nonneg hr1 hr2)

/-- Evaluating a square root at a perfect square. -/
lemma sqrt_eq_of_sq (a b : ℝ) (ha : 0 ≤ a) (h : a * a = b) : Real.sqrt b = a := by
  subst h
  rw [Real.sqrt_mul_self ha]

lemma Vec2.len_zero : Vec2.len ⟨0, 0⟩ = 0 := by
  unfold Vec2.len
  norm_num

/-- Normalizing the zero vector divides by a zero length; under the real
division convention the result is the zero vector again (in JavaScript it is
a NaN vector) — in either reading it is not a unit vector. -/
lemma Vec2.normalize_zero : Vec2.normalize ⟨0, 0⟩ = ⟨0, 0⟩ := by
  unfold Vec2.normalize
  simp

/-! ### Path lemmas: one per reachable branch of the two `testCollision`
implementations, with the component state given by an explicit constructor. -/

lemma circle_simpleHit_outcome (s : CircleCollider) (cand : HostObj)
    (hm : Bool) (c1 c2 : Circle2D) (t : ℝ) (m1 m2 : ℤ)
    (ha : s.hasMethods = some hm) (hmode : s.testMode = TestMode.SIMPLE_TEST)
    (h1 : s.host.worldCircle = some c1) (h2 : cand.worldCircle = some c2)
    (hint : c1.isIntersecting c2) :
    s.testCollision t cand m1 m2
      = ⟨Except.ok (baseTestCollision s.host),
         { s with collisionData := none }, true⟩ := by
  simp [CircleCollider.testCollision, ha, hmode, h1, h2, hint]

lemma circle_noHit_outcome (s : CircleCollider) (cand : HostObj)
    (hm : Bool) (c1 c2 : Circle2D) (t : ℝ) (m1 m2 : ℤ)
    (ha : s.hasMethods = some hm)
    (h1 : s.host.worldCircle = some c1) (h2 : cand.worldCircle = some c2)
    (hns : ¬ (s.testMode = TestMode.SIMPLE_TEST ∧ c1.isIntersecting c2))
    (hnh : ¬ circleDetailedHit c1 c2) :
    s.testCollision t cand m1 m2
      = ⟨Except.ok Verdict.CONTINUE, { s with collisionData := none }, false⟩ := by
  simp [CircleCollider.testCollision, ha, h1, h2, hns, hnh]

lemma circle_detailedHit_outcome (s : CircleCollider) (cand : HostObj)
    (hm : Bool) (c1 c2 : Circle2D) (t : ℝ) (m1 m2 : ℤ)
    (ha : s.hasMethods = some hm) (hmode : s.testMode = TestMode.DETAILED_TEST)
    (h1 : s.host.worldCircle = some c1) (h2 : cand.worldCircle = some c2)
    (hhit : circleDetailedHit c1 c2) :
    s.testCollision t cand m1 m2
      = ⟨Except.error JsErr.refError,
         { s with collisionData := none }, false⟩ := by
  simp [CircleCollider.testCollision, ha, hmode, h1, h2, hhit]

lemma box_detailedHit_outcome (s : BoxCollider) (cand : HostObj)
    (b1 b2 : Box2D) (t : ℝ) (m1 m2 : ℤ)
    (hmode : s.testMode = TestMode.DETAILED_TEST)
    (h1 : s.host.worldBox = some b1) (h2 : cand.worldBox = some b2)
    (hhit : boxDetailedHit b1 b2) :
    s.testCollision t cand m1 m2
      = ⟨Except.ok (baseTestCollision s.host),
         { s with collisionData := some (boxCollisionData b1 b2) }, true⟩ := by
  simp [BoxCollider.testCollision, hmode, h1, h2, hhit]

/-! ### Claim theorems -/

/-- C1 (code_bug evidence): the missing-capability skip does NOT cover every
candidate.  A Circle Collider whose host lacks `getWorldCircle` (capability
cache `some false`) still proceeds past the early-out whenever the candidate
HAS `getWorldCircle` — the guard is `!this.hasMethods[0] &&
!collisionObj.getWorldCircle` — and then throws a TypeError by calling the
missing `host.getWorldCircle()` instead of returning CONTINUE.  Only when the
candidate also lacks the accessor does the call return CONTINUE.  The Box
Collider behaves the same way (its early-out even reads the never-assigned
`hasMethods` property). -/
theorem missing_accessor_not_skipped :
    (CircleCollider.testCollision (CircleCollider.setHostObject {} {})
        0 { worldCircle := some ⟨⟨0, 0⟩, 1⟩ } 0 0).result
      = Except.error JsErr.typeError
  ∧ (CircleCollider.testCollision (CircleCollider.setHostObject {} {})
        0 {} 0 0).result = Except.ok Verdict.CONTINUE
  ∧ (BoxCollider.testCollision (BoxCollider.setHostObject {} {})
        0 { worldBox := some ⟨⟨0, 0⟩, 1, 1⟩ } 0 0).result
      = Except.error JsErr.typeError :=
  ⟨rfl, rfl, rfl⟩

/-- C3 (code_bug evidence): in DETAILED_TEST mode, when the overlap guard
succeeds (circles at (0,0) and (3,0), radii 2 and 2: squared distance 9 < 16),
the Circle Collider never stores a CollisionData referencing the two world
circles: the `CollisionData.create` call names the undeclared identifiers
`shape1`/`shape2` (the locals are `circle1`/`circle2`), so the call aborts
with a ReferenceError and the stored CollisionData stays cleared. -/
theorem circle_detailed_unbound_shapes_concrete :
    (CircleCollider.testCollision
        { hasMethods := some true, testMode := TestMode.DETAILED_TEST,
          host := { worldCircle := some ⟨⟨0, 0⟩, 2⟩ } }
        0 { worldCircle := some ⟨⟨3, 0⟩, 2⟩ } 0 0).result
      = Except.error JsErr.refError
  ∧ (CircleCollider.testCollision
        { hasMethods := some true, testMode := TestMode.DETAILED_TEST,
          host := { worldCircle := some ⟨⟨0, 0⟩, 2⟩ } }
        0 { worldCircle := some ⟨⟨3, 0⟩, 2⟩ } 0 0).state.collisionData = none := by
  have h := circle_detailedHit_outcome
      { hasMethods := some true, testMode := TestMode.DETAILED_TEST,
        host := { worldCircle := some ⟨⟨0, 0⟩, 2⟩ } }
      { worldCircle := some ⟨⟨3, 0⟩, 2⟩ }
      true ⟨⟨0, 0⟩, 2⟩ ⟨⟨3, 0⟩, 2⟩ 0 0 0 rfl rfl rfl rfl
      (by unfold circleDetailedHit circleTRad distSqr; norm_num)
  exact ⟨by rw [h], by rw [h]⟩

/-- C5 (confirmed): both `testCollision` implementations clear any previously
stored CollisionData as their first action (destroy + `setCollisionData(null)`
at lines 116-120 and 303-307), so the whole outcome — verdict, final state and
callback dispatch — is independent of whatever CollisionData was stored
before the call: no stale CollisionData survives into a new test, and at most
the single most-recent CollisionData is retained. -/
theorem testCollision_clears_previous_data :
    (∀ (s : CircleCollider) (dOld : Option CollisionData) (t : ℝ)
        (cand : HostObj) (m1 m2 : ℤ),
        CircleCollider.testCollision { s with collisionData := dOld } t cand m1 m2
          = CircleCollider.testCollision { s with collisionData := none } t cand m1 m2)
  ∧ (∀ (s : BoxCollider) (dOld : Option CollisionData) (t : ℝ)
        (cand : HostObj) (m1 m2 : ℤ),
        BoxCollider.testCollision { s with collisionData := dOld } t cand m1 m2
          = BoxCollider.testCollision { s with collisionData := none } t cand m1 m2) :=
  ⟨fun _ _ _ _ _ _ => rfl, fun _ _ _ _ _ _ => rfl⟩

/-- C9 (code_bug evidence): after `release()`, the Box Collider's capability
cache (`hasMethod`) is reset to its unattached state and neither collider
retains a CollisionData; but the Circle Collider's release assigns
`this.hasMethod = null` — a property distinct from its actual capability
cache `hasMethods` — so the cache still holds the attach-time value
`[true]` instead of being invalidated. -/
theorem release_leaves_circle_capability_cache :
    ((CircleCollider.setHostObject {} { worldCircle := some ⟨⟨0, 0⟩, 1⟩ }).release).hasMethods
      = some true
  ∧ ((CircleCollider.setHostObject {} { worldCircle := some ⟨⟨0, 0⟩, 1⟩ }).release).collisionData
      = none
  ∧ ((CircleCollider.setHostObject {} { worldCircle := some ⟨⟨0, 0⟩, 1⟩ }).release).cData
      = none
  ∧ ((CircleCollider.setHostObject {} { worldCircle := some ⟨⟨0, 0⟩, 1⟩ }).release).hasMethod
      = none
  ∧ ((BoxCollider.setHostObject {} { worldBox := some ⟨⟨0, 0⟩, 1, 1⟩ }).release).hasMethod
      = false
  ∧ ((BoxCollider.setHostObject {} { worldBox := some ⟨⟨0, 0⟩, 1, 1⟩ }).release).collisionData
      = none :=
  ⟨rfl, rfl, rfl, rfl, rfl, rfl⟩

/-- C2 (confirmed): a Circle Collider in SIMPLE_TEST mode never stores a
CollisionData, and on non-intersecting world bounding circles (non-negative
radii) it returns CONTINUE without running the host's collision callback.
When the boolean intersection fails, control does fall into the `else` branch
holding the detailed computation, but its squared-distance guard is then
necessarily false, so the detailed machinery stays unreachable. -/
theorem circle_simple_mode_no_data (s : CircleCollider) (cand : HostObj)
    (hm : Bool) (c1 c2 : Circle2D) (t : ℝ) (m1 m2 : ℤ)
    (hmode : s.testMode = TestMode.SIMPLE_TEST) (hhm : s.hasMethods = some hm)
    (h1 : s.host.worldCircle = some c1) (h2 : cand.worldCircle = some c2)
    (hr1 : 0 ≤ c1.radius) (hr2 : 0 ≤ c2.radius) :
    (s.testCollision t cand m1 m2).state.collisionData = none
  ∧ (¬ c1.isIntersecting c2 →
      (s.testCollision t cand m1 m2).result = Except.ok Verdict.CONTINUE
    ∧ (s.testCollision t cand m1 m2).dispatched = false) := by
  by_cases hint : c1.isIntersecting c2
  · rw [circle_simpleHit_outcome s cand hm c1 c2 t m1 m2 hhm hmode h1 h2 hint]
    exact ⟨rfl, fun hno => absurd hint hno⟩
  · have hns : ¬ (s.testMode = TestMode.SIMPLE_TEST ∧ c1.isIntersecting c2) :=
      fun hc => hint hc.2
    have hnh : ¬ circleDetailedHit c1 c2 :=
      fun hh => hint ((circleDetailedHit_iff_isIntersecting c1 c2 hr1 hr2).mp hh)
    rw [circle_noHit_outcome s cand hm c1 c2 t m1 m2 hhm h1 h2 hns hnh]
    exact ⟨rfl, fun _ => ⟨rfl, rfl⟩⟩

/-- Witness for C2: circles of radius 1 at (0,0) and (5,0) in SIMPLE_TEST
mode — no CollisionData, verdict CONTINUE, callback not dispatched. -/
theorem circle_simple_mode_no_data_witness :
    (CircleCollider.testCollision
        { hasMethods := some true, testMode := TestMode.SIMPLE_TEST,
          host := { worldCircle := some ⟨⟨0, 0⟩, 1⟩ } }
        0 { worldCircle := some ⟨⟨5, 0⟩, 1⟩ } 0 0).state.collisionData = none
  ∧ (CircleCollider.testCollision
        { hasMethods := some true, testMode := TestMode.SIMPLE_TEST,
          host := { worldCircle := some ⟨⟨0, 0⟩, 1⟩ } }
        0 { worldCircle := some ⟨⟨5, 0⟩, 1⟩ } 0 0).result
      = Except.ok Verdict.CONTINUE := by
  have hnint : ¬ (Circle2D.isIntersecting ⟨⟨0, 0⟩, 1⟩ ⟨⟨5, 0⟩, 1⟩) := by
    unfold Circle2D.isIntersecting
    rw [show distSqr (⟨0, 0⟩ : Vec2) ⟨5, 0⟩ = 25 by unfold distSqr; norm_num,
        sqrt_eq_of_sq 5 25 (by norm_num) (by norm_num)]
    norm_num
  have h := circle_simple_mode_no_data
      { hasMethods := some true, testMode := TestMode.SIMPLE_TEST,
        host := { worldCircle := some ⟨⟨0, 0⟩, 1⟩ } }
      { worldCircle := some ⟨⟨5, 0⟩, 1⟩ } true ⟨⟨0, 0⟩, 1⟩ ⟨⟨5, 0⟩, 1⟩ 0 0 0
      rfl rfl rfl rfl (by norm_num) (by norm_num)
  exact ⟨h.1, (h.2 hnint).1⟩

/-- C6 (confirmed): for non-negative radii, the circle collider's detailed
guard (`distSqr < tRad*tRad`, line 145) holds exactly when the center
distance is strictly below the sum of the radii; at the boundary
`d = r1 + r2` there is no collision (the comparison is strict). -/
theorem circle_hit_iff_strict (c1 c2 : Circle2D)
    (hr1 : 0 ≤ c1.radius) (hr2 : 0 ≤ c2.radius) :
    (circleDetailedHit c1 c2 ↔
        Real.sqrt (distSqr c1.center c2.center) < c1.radius + c2.radius)
  ∧ (Real.sqrt (distSqr c1.center c2.center) = c1.radius + c2.radius →
      ¬ circleDetailedHit c1 c2) := by
  have hiff : circleDetailedHit c1 c2 ↔
      Real.sqrt (distSqr c1.center c2.center) < c1.radius + c2.radius := by
    unfold circleDetailedHit circleTRad
    exact lt_sq_iff_sqrt_lt _ _ _ (add_nonneg hr1 hr2)
  refine ⟨hiff, fun he hh => ?_⟩
  rw [hiff, he] at hh
  exact lt_irrefl _ hh

/-- Witness for C6: the guard evaluated at circles of radius 2 centered at
(0,0) and (3,0). -/
theorem circle_hit_iff_strict_witness :
    (circleDetailedHit ⟨⟨0, 0⟩, 2⟩ ⟨⟨3, 0⟩, 2⟩ ↔
        Real.sqrt (distSqr ⟨0, 0⟩ ⟨3, 0⟩) < 2 + 2)
  ∧ (Real.sqrt (distSqr ⟨0, 0⟩ ⟨3, 0⟩) = 2 + 2 →
      ¬ circleDetailedHit ⟨⟨0, 0⟩, 2⟩ ⟨⟨3, 0⟩, 2⟩) :=
  circle_hit_iff_strict ⟨⟨0, 0⟩, 2⟩ ⟨⟨3, 0⟩, 2⟩ (by norm_num) (by norm_num)

/-- C7 (confirmed): any CollisionData a collider retains after a
`testCollision` call has `distance` equal to the Euclidean norm of its
`separation` vector — the box detailed path stores
`CollisionData.create(sep.len(), ..., sep)`, so the first field is literally
the length of the last; the circle path never completes a store (its
construction aborts on the unbound `shape1`/`shape2`), so the property holds
for every CollisionData either collider ever retains. -/
theorem stored_distance_eq_sep_len :
    (∀ (s : BoxCollider) (t : ℝ) (cand : HostObj) (m1 m2 : ℤ)
        (cd : CollisionData),
        (s.testCollision t cand m1 m2).state.collisionData = some cd →
        cd.distance = cd.separation.len)
  ∧ (∀ (s : CircleCollider) (t : ℝ) (cand : HostObj) (m1 m2 : ℤ)
        (cd : CollisionData),
        (s.testCollision t cand m1 m2).state.collisionData = some cd →
        cd.distance = cd.separation.len) := by
  constructor
  · intro s t cand m1 m2 cd h
    simp only [BoxCollider.testCollision] at h
    repeat' split at h
    all_goals simp_all [boxCollisionData]
    all_goals (subst h; rfl)
  · intro s t cand m1 m2 cd h
    simp only [CircleCollider.testCollision] at h
    repeat' split at h
    all_goals simp_all

/-- Witness for C7: the CollisionData stored by a detailed box test between
unit-half-extent boxes at (0,0) and (1,0) satisfies distance = |separation|. -/
theorem stored_distance_eq_sep_len_witness :
    (boxCollisionData ⟨⟨0, 0⟩, 1, 1⟩ ⟨⟨1, 0⟩, 1, 1⟩).distance
      = (boxCollisionData ⟨⟨0, 0⟩, 1, 1⟩ ⟨⟨1, 0⟩, 1, 1⟩).separation.len := by
  refine stored_distance_eq_sep_len.1
      { hasMethod := true, testMode := TestMode.DETAILED_TEST,
        host := { worldBox := some ⟨⟨0, 0⟩, 1, 1⟩ } }
      0 { worldBox := some ⟨⟨1, 0⟩, 1, 1⟩ } 0 0 _ ?_
  rw [box_detailedHit_outcome
      { hasMethod := true, testMode := TestMode.DETAILED_TEST,
        host := { worldBox := some ⟨⟨0, 0⟩, 1, 1⟩ } }
      { worldBox := some ⟨⟨1, 0⟩, 1, 1⟩ } ⟨⟨0, 0⟩, 1, 1⟩ ⟨⟨1, 0⟩, 1, 1⟩ 0 0 0
      rfl rfl rfl
      (by unfold boxDetailedHit boxTRad distSqr; norm_num)]

/-- C4 (counterexample): in the spec's scenario — circles centered (0,0) and
(3,0), radii 2 and 2, DETAILED_TEST — `testCollision` stores NO CollisionData
at all (the construction aborts on the unbound `shape1`/`shape2`), so in
particular no CollisionData with normal (1,0) and separation (1,0) is stored;
moreover the separation vector the code computes at line 150 is (3,0) — the
raw center difference scaled by diff = 1 — not the unit direction scaled by
diff. -/
theorem circle_scenario_counterexample :
    (CircleCollider.testCollision
        { hasMethods := some true, testMode := TestMode.DETAILED_TEST,
          host := { worldCircle := some ⟨⟨0, 0⟩, 2⟩ } }
        0 { worldCircle := some ⟨⟨3, 0⟩, 2⟩ } 0 0).state.collisionData = none
  ∧ circleSep ⟨⟨0, 0⟩, 2⟩ ⟨⟨3, 0⟩, 2⟩ = ⟨3, 0⟩ := by
  have h9 : Real.sqrt (distSqr (⟨0, 0⟩ : Vec2) ⟨3, 0⟩) = 3 :=
    sqrt_eq_of_sq 3 _ (by norm_num) (by unfold distSqr; norm_num)
  constructor
  · rw [circle_detailedHit_outcome
        { hasMethods := some true, testMode := TestMode.DETAILED_TEST,
          host := { worldCircle := some ⟨⟨0, 0⟩, 2⟩ } }
        { worldCircle := some ⟨⟨3, 0⟩, 2⟩ }
        true ⟨⟨0, 0⟩, 2⟩ ⟨⟨3, 0⟩, 2⟩ 0 0 0 rfl rfl rfl rfl
        (by unfold circleDetailedHit circleTRad distSqr; norm_num)]
  · unfold circleSep circleDiff circleTRad
    rw [h9]
    simp only [Vec2.mk.injEq]
    norm_num

/-- C4 (amended): at the scenario input the detailed guard does detect the
collision (squared distance 9 < 16) and the code computes diff = 4 - 3 = 1, a
separation vector equal to the raw center difference scaled by diff — (3,0),
of length 3 — and a unit normal (1,0); but evaluating the
`CollisionData.create` arguments then raises a ReferenceError on the unbound
`shape1`/`shape2`, so nothing is stored and `testCollision` throws instead of
returning a verdict. -/
theorem circle_scenario_amended :
    circleDetailedHit ⟨⟨0, 0⟩, 2⟩ ⟨⟨3, 0⟩, 2⟩
  ∧ circleDiff ⟨⟨0, 0⟩, 2⟩ ⟨⟨3, 0⟩, 2⟩ = 1
  ∧ circleSep ⟨⟨0, 0⟩, 2⟩ ⟨⟨3, 0⟩, 2⟩ = ⟨3, 0⟩
  ∧ (circleSep ⟨⟨0, 0⟩, 2⟩ ⟨⟨3, 0⟩, 2⟩).len = 3
  ∧ circleNormal ⟨⟨0, 0⟩, 2⟩ ⟨⟨3, 0⟩, 2⟩ = ⟨1, 0⟩
  ∧ (CircleCollider.testCollision
        { hasMethods := some true, testMode := TestMode.DETAILED_TEST,
          host := { worldCircle := some ⟨⟨0, 0⟩, 2⟩ } }
        0 { worldCircle := some ⟨⟨3, 0⟩, 2⟩ } 0 0).result
      = Except.error JsErr.refError := by
  have h9 : Real.sqrt (distSqr (⟨0, 0⟩ : Vec2) ⟨3, 0⟩) = 3 :=
    sqrt_eq_of_sq 3 _ (by norm_num) (by unfold distSqr; norm_num)
  have hsep : circleSep ⟨⟨0, 0⟩, 2⟩ ⟨⟨3, 0⟩, 2⟩ = ⟨3, 0⟩ := by
    unfold circleSep circleDiff circleTRad
    rw [h9]
    simp only [Vec2.mk.injEq]
    norm_num
  refine ⟨by unfold circleDetailedHit circleTRad distSqr; norm_num,
          by unfold circleDiff circleTRad; rw [h9]; norm_num,
          hsep, ?_, ?_, ?_⟩
  · rw [hsep]
    exact sqrt_eq_of_sq 3 _ (by norm_num) (by norm_num)
  · unfold circleNormal Vec2.normalize Vec2.len
    have h9b : Real.sqrt ((3 - 0) * (3 - 0) + (0 - 0) * (0 - 0) : ℝ) = 3 :=
      sqrt_eq_of_sq 3 _ (by norm_num) (by norm_num)
    simp only [h9b, Vec2.mk.injEq]
    norm_num
  · rw [circle_detailedHit_outcome
        { hasMethods := some true, testMode := TestMode.DETAILED_TEST,
          host := { worldCircle := some ⟨⟨0, 0⟩, 2⟩ } }
        { worldCircle := some ⟨⟨3, 0⟩, 2⟩ }
        true ⟨⟨0, 0⟩, 2⟩ ⟨⟨3, 0⟩, 2⟩ 0 0 0 rfl rfl rfl rfl
        (by unfold circleDetailedHit circleTRad distSqr; norm_num)]

/-- C8 (code_bug evidence): on a detailed-mode overlap with a host callback
returning STOP, the Box Collider propagates the base-class dispatch verdict
(STOP, with the callback dispatched), as the claim states for both variants;
but the Circle Collider aborts with a ReferenceError on the unbound
`shape1`/`shape2` before the base dispatch ever runs, so its callback is not
invoked and no verdict is returned. -/
theorem overlap_dispatch_verdict_broken :
    (BoxCollider.testCollision
        { hasMethod := true, testMode := TestMode.DETAILED_TEST,
          host := { worldBox := some ⟨⟨0, 0⟩, 1, 1⟩,
                    onCollide := Verdict.STOP } }
        0 { worldBox := some ⟨⟨1, 0⟩, 1, 1⟩ } 0 0).result
      = Except.ok Verdict.STOP
  ∧ (BoxCollider.testCollision
        { hasMethod := true, testMode := TestMode.DETAILED_TEST,
          host := { worldBox := some ⟨⟨0, 0⟩, 1, 1⟩,
                    onCollide := Verdict.STOP } }
        0 { worldBox := some ⟨⟨1, 0⟩, 1, 1⟩ } 0 0).dispatched = true
  ∧ (CircleCollider.testCollision
        { hasMethods := some true, testMode := TestMode.DETAILED_TEST,
          host := { worldCircle := some ⟨⟨0, 0⟩, 2⟩,
                    onCollide := Verdict.STOP } }
        0 { worldCircle := some ⟨⟨3, 0⟩, 2⟩ } 0 0).result
      = Except.error JsErr.refError
  ∧ (CircleCollider.testCollision
        { hasMethods := some true, testMode := TestMode.DETAILED_TEST,
          host := { worldCircle := some ⟨⟨0, 0⟩, 2⟩,
                    onCollide := Verdict.STOP } }
        0 { worldCircle := some ⟨⟨3, 0⟩, 2⟩ } 0 0).dispatched = false := by
  have hb := box_detailedHit_outcome
      { hasMethod := true, testMode := TestMode.DETAILED_TEST,
        host := { worldBox := some ⟨⟨0, 0⟩, 1, 1⟩, onCollide := Verdict.STOP } }
      { worldBox := some ⟨⟨1, 0⟩, 1, 1⟩ } ⟨⟨0, 0⟩, 1, 1⟩ ⟨⟨1, 0⟩, 1, 1⟩ 0 0 0
      rfl rfl rfl (by unfold boxDetailedHit boxTRad distSqr; norm_num)
  have hc := circle_detailedHit_outcome
      { hasMethods := some true, testMode := TestMode.DETAILED_TEST,
        host := { worldCircle := some ⟨⟨0, 0⟩, 2⟩, onCollide := Verdict.STOP } }
      { worldCircle := some ⟨⟨3, 0⟩, 2⟩ }
      true ⟨⟨0, 0⟩, 2⟩ ⟨⟨3, 0⟩, 2⟩ 0 0 0 rfl rfl rfl rfl
      (by unfold circleDetailedHit circleTRad distSqr; norm_num)
  exact ⟨by rw [hb]; rfl, by rw [hb], by rw [hc], by rw [hc]⟩

/-- C10 (counterexample): for coincident centers with positive combined
radius, the CIRCLE variant does not store any CollisionData and does not
reach the host callback — the detailed guard does fire (0 < tRad²), but the
call then aborts with a ReferenceError on the unbound `shape1`/`shape2`. -/
theorem coincident_centers_circle_counterexample :
    (CircleCollider.testCollision
        { hasMethods := some true, testMode := TestMode.DETAILED_TEST,
          host := { worldCircle := some ⟨⟨1, 1⟩, 2⟩ } }
        0 { worldCircle := some ⟨⟨1, 1⟩, 3⟩ } 0 0).state.collisionData = none
  ∧ (CircleCollider.testCollision
        { hasMethods := some true, testMode := TestMode.DETAILED_TEST,
          host := { worldCircle := some ⟨⟨1, 1⟩, 2⟩ } }
        0 { worldCircle := some ⟨⟨1, 1⟩, 3⟩ } 0 0).result
      = Except.error JsErr.refError
  ∧ (CircleCollider.testCollision
        { hasMethods := some true, testMode := TestMode.DETAILED_TEST,
          host := { worldCircle := some ⟨⟨1, 1⟩, 2⟩ } }
        0 { worldCircle := some ⟨⟨1, 1⟩, 3⟩ } 0 0).dispatched = false := by
  have hc := circle_detailedHit_outcome
      { hasMethods := some true, testMode := TestMode.DETAILED_TEST,
        host := { worldCircle := some ⟨⟨1, 1⟩, 2⟩ } }
      { worldCircle := some ⟨⟨1, 1⟩, 3⟩ }
      true ⟨⟨1, 1⟩, 2⟩ ⟨⟨1, 1⟩, 3⟩ 0 0 0 rfl rfl rfl rfl
      (by unfold circleDetailedHit circleTRad distSqr; norm_num)
  exact ⟨by rw [hc], by rw [hc], by rw [hc]⟩

/-- C10 (amended): with coincident centers and positive combined radius, the
BOX variant detects the collision and stores a CollisionData whose separation
is the zero vector, whose distance is 0, and whose normal is the result of
normalizing the zero vector — not a unit vector — before dispatching the
host callback and propagating its verdict; the CIRCLE variant's guard also
fires, but the call then aborts with a ReferenceError (unbound
`shape1`/`shape2`), storing nothing and never dispatching the callback. -/
theorem coincident_centers_amended :
    (∀ (s : BoxCollider) (cand : HostObj) (b1 b2 : Box2D) (t : ℝ) (m1 m2 : ℤ),
        s.testMode = TestMode.DETAILED_TEST →
        s.host.worldBox = some b1 → cand.worldBox = some b2 →
        b1.center = b2.center → 0 < boxTRad b1 b2 →
        ∃ cd : CollisionData,
          (s.testCollision t cand m1 m2).state.collisionData = some cd
        ∧ cd.separation = ⟨0, 0⟩
        ∧ cd.distance = 0
        ∧ cd.normal = Vec2.normalize ⟨0, 0⟩
        ∧ cd.normal.len ≠ 1
        ∧ (s.testCollision t cand m1 m2).result
            = Except.ok (baseTestCollision s.host)
        ∧ (s.testCollision t cand m1 m2).dispatched = true)
  ∧ (∀ (s : CircleCollider) (cand : HostObj) (hm : Bool) (c1 c2 : Circle2D)
        (t : ℝ) (m1 m2 : ℤ),
        s.testMode = TestMode.DETAILED_TEST → s.hasMethods = some hm →
        s.host.worldCircle = some c1 → cand.worldCircle = some c2 →
        c1.center = c2.center → 0 < circleTRad c1 c2 →
        (s.testCollision t cand m1 m2).result = Except.error JsErr.refError
      ∧ (s.testCollision t cand m1 m2).state.collisionData = none
      ∧ (s.testCollision t cand m1 m2).dispatched = false) := by
  constructor
  · intro s cand b1 b2 t m1 m2 hmode h1 h2 hcen htr
    have hhit : boxDetailedHit b1 b2 := by
      unfold boxDetailedHit
      rw [show distSqr b1.center b2.center = 0 by rw [hcen]; unfold distSqr; ring]
      exact mul_pos htr htr
    have hsep : boxSep b1 b2 = ⟨0, 0⟩ := by
      unfold boxSep
      rw [← hcen]
      simp
    have hnor : boxNormal b1 b2 = Vec2.normalize ⟨0, 0⟩ := by
      unfold boxNormal
      rw [← hcen]
      simp
    rw [box_detailedHit_outcome s cand b1 b2 t m1 m2 hmode h1 h2 hhit]
    refine ⟨boxCollisionData b1 b2, rfl, hsep, ?_, hnor, ?_, rfl, rfl⟩
    · show (boxSep b1 b2).len = 0
      rw [hsep]
      exact Vec2.len_zero
    · show (boxNormal b1 b2).len ≠ 1
      rw [hnor, Vec2.normalize_zero, Vec2.len_zero]
      norm_num
  · intro s cand hm c1 c2 t m1 m2 hmode hhm h1 h2 hcen htr
    have hhit : circleDetailedHit c1 c2 := by
      unfold circleDetailedHit
      rw [show distSqr c1.center c2.center = 0 by rw [hcen]; unfold distSqr; ring]
      exact mul_pos htr htr
    rw [circle_detailedHit_outcome s cand hm c1 c2 t m1 m2 hhm hmode h1 h2 hhit]
    exact ⟨rfl, rfl, rfl⟩

/-- Witness for C10 (amended): a box collider testing a box against a
coincident copy of itself, and a circle collider over two concentric
circles. -/
theorem coincident_centers_amended_witness :
    (∃ cd : CollisionData,
        (BoxCollider.testCollision
            { hasMethod := true, testMode := TestMode.DETAILED_TEST,
              host := { worldBox := some ⟨⟨2, 2⟩, 1, 1⟩ } }
            0 { worldBox := some ⟨⟨2, 2⟩, 1, 1⟩ } 0 0).state.collisionData
          = some cd
      ∧ cd.separation = ⟨0, 0⟩
      ∧ cd.distance = 0
      ∧ cd.normal = Vec2.normalize ⟨0, 0⟩
      ∧ cd.normal.len ≠ 1
      ∧ (BoxCollider.testCollision
            { hasMethod := true, testMode := TestMode.DETAILED_TEST,
              host := { worldBox := some ⟨⟨2, 2⟩, 1, 1⟩ } }
            0 { worldBox := some ⟨⟨2, 2⟩, 1, 1⟩ } 0 0).result
          = Except.ok Verdict.CONTINUE
      ∧ (BoxCollider.testCollision
            { hasMethod := true, testMode := TestMode.DETAILED_TEST,
              host := { worldBox := some ⟨⟨2, 2⟩, 1, 1⟩ } }
            0 { worldBox := some ⟨⟨2, 2⟩, 1, 1⟩ } 0 0).dispatched = true)
  ∧ ((CircleCollider.testCollision
        { hasMethods := some true, testMode := TestMode.DETAILED_TEST,
          host := { worldCircle := some ⟨⟨1, 1⟩, 2⟩ } }
        0 { worldCircle := some ⟨⟨1, 1⟩, 3⟩ } 0 0).result
        = Except.error JsErr.refError
    ∧ (CircleCollider.testCollision
        { hasMethods := some true, testMode := TestMode.DETAILED_TEST,
          host := { worldCircle := some ⟨⟨1, 1⟩, 2⟩ } }
        0 { worldCircle := some ⟨⟨1, 1⟩, 3⟩ } 0 0).state.collisionData = none
    ∧ (CircleCollider.testCollision
        { hasMethods := some true, testMode := TestMode.DETAILED_TEST,
          host := { worldCircle := some ⟨⟨1, 1⟩, 2⟩ } }
        0 { worldCircle := some ⟨⟨1, 1⟩, 3⟩ } 0 0).dispatched = false) :=
  ⟨coincident_centers_amended.1
      { hasMethod := true, testMode := TestMode.DETAILED_TEST,
        host := { worldBox := some ⟨⟨2, 2⟩, 1, 1⟩ } }
      { worldBox := some ⟨⟨2, 2⟩, 1, 1⟩ } ⟨⟨2, 2⟩, 1, 1⟩ ⟨⟨2, 2⟩, 1, 1⟩ 0 0 0
      rfl rfl rfl rfl (by unfold boxTRad; norm_num),
   coincident_centers_amended.2
      { hasMethods := some true, testMode := TestMode.DETAILED_TEST,
        host := { worldCircle := some ⟨⟨1, 1⟩, 2⟩ } }
      { worldCircle := some ⟨⟨1, 1⟩, 3⟩ } true ⟨⟨1, 1⟩, 2⟩ ⟨⟨1, 1⟩, 3⟩ 0 0 0
      rfl rfl rfl rfl rfl (by unfold circleTRad; norm_num)⟩

end RenderEngine
